import Mathlib

/-!
Verification of the specvault backend (retrieve→generate RAG pipeline with
citation tracking) against its natural-language specification.

The definitions below are a shallow embedding of the Python sources:
  - `src/backend/agent.py`   (retrieve / generate nodes, linear StateGraph, run_agent)
  - `src/backend/server.py`  (the /api/chat endpoint)
  - `src/backend/ingest.py`  (startup credential checks)
  - `src/backend/mcp_server.py` (the compare_materials tool branch)

External services (the Pinecone similarity search and the Gemini language
model) are modelled as function parameters returning `Except String _`:
a `Except.error` value stands for a raised exception in the Python code.
Python strings are Lean `String`s (both index by characters), Python lists
are Lean `List`s, and a missing dictionary/metadata key is `Option.none`.
-/

namespace SpecVault

/-- Metadata attached to a retrieved passage, as read by `retrieve` in
`agent.py`: `doc.metadata.get("source", ...)` and `doc.metadata.get("page", ...)`.
A key absent from the metadata dict is `none`.  The `page` value is numeric
when present (ingestion stores a 1-indexed int); `str()` is `toString`. -/
structure Metadata where
  source : Option String
  page : Option Nat
  deriving Repr, DecidableEq

/-- A passage returned by `vectorstore.similarity_search` (a langchain
`Document`): text plus metadata. -/
structure Doc where
  page_content : String
  metadata : Metadata
  deriving Repr, DecidableEq

/-- One citation record, the `Source` TypedDict of `agent.py` (same shape as
the `Source` pydantic model of `server.py`). -/
structure Source where
  ref : String
  document : String
  page : String
  content_preview : String
  deriving Repr, DecidableEq

/-- `source_ref = f"[{i+1}]"` in `retrieve` (agent.py line 51), for the
0-based enumeration index `i`. -/
def mkRef (i : Nat) : String := "[" ++ toString (i + 1) ++ "]"

/-- The `content_preview` expression of agent.py line 61:
`doc.page_content[:200] + "..." if len(doc.page_content) > 200 else doc.page_content`. -/
def preview (s : String) : String :=
  if 200 < s.length then s.take 200 ++ "..." else s

/-- The dict appended to `sources` for the `i`-th retrieved doc
(agent.py lines 57-62). -/
def mkSource (i : Nat) (d : Doc) : Source :=
  { ref := mkRef i
  , document := d.metadata.source.getD "Unknown Document"
  , page := match d.metadata.page with
            | some n => toString n
            | none => "N/A"
  , content_preview := preview d.page_content }

/-- The `for i, doc in enumerate(docs)` loop of `retrieve` (agent.py lines
50-62), rendered as structural recursion carrying the enumeration index `i`:
returns the `context_with_sources` list and the `sources` list, in append
order. -/
def retrieveFrom : Nat → List Doc → List String × List Source
  | _, [] => ([], [])
  | i, d :: ds =>
    ((mkRef i ++ " " ++ d.page_content) :: (retrieveFrom (i + 1) ds).1,
     mkSource i d :: (retrieveFrom (i + 1) ds).2)

/-- The pair returned by the `retrieve` node (agent.py lines 64-67). -/
structure RetrieveResult where
  context : String
  sources : List Source
  deriving Repr, DecidableEq

/-- The `context_with_sources` list built by `retrieve`, before joining. -/
def contextEntries (docs : List Doc) : List String :=
  (retrieveFrom 0 docs).1

/-- The `retrieve` node of agent.py applied to the list of docs returned by
the similarity search: builds the joined context string and the sources
list.  `"\n\n".join(xs)` is `String.intercalate "\n\n" xs`. -/
def retrieve (docs : List Doc) : RetrieveResult :=
  { context := String.intercalate "\n\n" (contextEntries docs)
  , sources := (retrieveFrom 0 docs).2 }

/- ## The retrieve→generate workflow (agent.py lines 24-134) -/

/-- The `AgentState` TypedDict of agent.py.  Messages are modelled by their
content strings (`HumanMessage(content=q)` and the model reply both carry a
plain string). -/
structure AgentState where
  messages : List String
  context : String
  sources : List Source
  deriving Repr, DecidableEq

/-- The two nodes of the `StateGraph` (agent.py lines 103-109). -/
inductive Node
  | retrieveStep
  | generateStep
  deriving Repr, DecidableEq

/-- The fixed instruction template of `generate` (agent.py lines 77-97),
with the `context` and `question` f-string slots filled in. -/
def promptTemplate (context question : String) : String :=
  "You are an expert material science and steel engineer specializing in:\n- ASTM steel standards (A106, A53, A333, A516, etc.)\n- ASME pressure vessel and piping codes (B31.3, Section VIII)\n- API specifications (5L, 5CT, 650)\n- NACE corrosion standards (MR0175, SP0169)\n\nCRITICAL INSTRUCTION: Always cite your sources using [1], [2], etc. reference numbers that correspond to the context provided.\n\nWhen answering:\n1. Cite the specific standard/document for each claim using [N] references\n2. Include exact values (yield strength, chemical composition, hardness limits) when available\n3. For compliance questions, state PASS/FAIL with the specific clause/section that applies\n4. If information conflicts between sources, note the discrepancy\n5. If uncertain, say \"Based on [N], but recommend verification with original document\"\n\nContext (with source references):\n" ++ context ++ "\n\nQuestion: " ++ question ++ "\n\nAnswer with citations:"

/-- The `retrieve` node as run inside the graph (agent.py lines 37-67).
`search` stands for `vectorstore.similarity_search(last_message, k=10)`;
an `Except.error` is a raised exception (a Retrieval Failure).
`messages[-1]` on an empty list raises an IndexError, modelled as an error.
The returned partial state update replaces the `context` and `sources`
channels (langgraph channels without reducers are overwritten). -/
def retrieveNode (search : String → Except String (List Doc))
    (st : AgentState) : Except String AgentState :=
  match st.messages.getLast? with
  | none => Except.error "list index out of range"
  | some last_message =>
    (search last_message).map fun docs =>
      { st with
        context := (retrieve docs).context
        sources := (retrieve docs).sources }

/-- The `generate` node (agent.py lines 69-100).  `llm` stands for
`llm.invoke` applied to the single prompt message; an `Except.error` is a
raised exception (a Generation Failure).  The `{"messages": [response]}`
update replaces the `messages` channel. -/
def generateNode (llm : String → Except String String)
    (st : AgentState) : Except String AgentState :=
  match st.messages.getLast? with
  | none => Except.error "list index out of range"
  | some question =>
    (llm (promptTemplate st.context question)).map fun response =>
      { st with messages := [response] }

/-- Execution of the compiled graph (agent.py lines 103-111): entry point
`retrieve`, edge retrieve→generate, edge generate→END.  Besides the final
state (or first raised error), the list of nodes that actually executed is
returned, in order, so that claims about a stage being invoked or skipped
can be stated. -/
def runWorkflow (search : String → Except String (List Doc))
    (llm : String → Except String String)
    (st : AgentState) : Except String AgentState × List Node :=
  match retrieveNode search st with
  | Except.error e => (Except.error e, [Node.retrieveStep])
  | Except.ok st1 =>
    match generateNode llm st1 with
    | Except.error e => (Except.error e, [Node.retrieveStep, Node.generateStep])
    | Except.ok st2 => (Except.ok st2, [Node.retrieveStep, Node.generateStep])

/-- The `inputs` dict of `run_agent` (agent.py lines 124-128). -/
def initialState (query : String) : AgentState :=
  { messages := [query], context := "", sources := [] }

/-- `run_agent` (agent.py lines 114-134): runs the graph on the initial
state and packages `result['messages'][-1].content` with
`result.get('sources', [])`.  An exception anywhere inside propagates to
the caller as an `Except.error`. -/
def run_agent (search : String → Except String (List Doc))
    (llm : String → Except String String)
    (query : String) : Except String (String × List Source) :=
  match (runWorkflow search llm (initialState query)).1 with
  | Except.error e => Except.error e
  | Except.ok st =>
    match st.messages.getLast? with
    | none => Except.error "list index out of range"
    | some response => Except.ok (response, st.sources)

/- ## The /api/chat endpoint (server.py lines 74-89) -/

/-- The `ChatResponse` pydantic model of server.py. -/
structure ChatResponse where
  response : String
  sources : List Source
  deriving Repr, DecidableEq

/-- The `chat` handler (server.py lines 74-89): `try` around `run_agent`;
on success a complete `ChatResponse`, on any exception an
`HTTPException(status_code=500, detail=str(e))`, modelled as
`Except.error (500, e)`. -/
def chat (run : String → Except String (String × List Source))
    (query : String) : Except (Nat × String) ChatResponse :=
  match run query with
  | Except.ok (response, sources) =>
      Except.ok { response := response, sources := sources }
  | Except.error e => Except.error (500, e)

/- ## Startup configuration (agent.py lines 11-16, ingest.py lines 14-21, 112-117) -/

/-- The environment variables the backend reads.  `none` means the variable
is unset; `some ""` is set-but-empty (falsy in Python). -/
structure Env where
  google_api_key : Option String
  pinecone_api_key : Option String
  pinecone_index_name : Option String
  deriving Repr, DecidableEq

/-- Python truthiness of an `os.getenv` result: `None` and `""` are falsy. -/
def pyTruthy : Option String → Bool
  | none => false
  | some s => !s.isEmpty

/-- Module initialization of agent.py (lines 11-16): reads `GOOGLE_API_KEY`
and `PINECONE_INDEX_NAME` (default `"steel-index"`), then
`if not GOOGLE_API_KEY: raise ValueError("GOOGLE_API_KEY missing")`.
Returns the resolved index name on success.  No other credential is
checked here; in particular `PINECONE_API_KEY` is never read by agent.py. -/
def initAgentConfig (env : Env) : Except String String :=
  if pyTruthy env.google_api_key then
    Except.ok (env.pinecone_index_name.getD "steel-index")
  else
    Except.error "GOOGLE_API_KEY missing"

/-- Outcome of the `PINECONE_API_KEY` check inside `ingest_data`
(ingest.py lines 115-117). -/
inductive UploadGate
  | skipped
  | proceeds
  deriving Repr, DecidableEq

/-- ingest.py lines 115-117: `if not PINECONE_API_KEY: print("... Skipping
upload."); return` — a missing vector-index key makes `ingest_data` return
normally without uploading; it raises no error. -/
def pineconeUploadGate (env : Env) : UploadGate :=
  if pyTruthy env.pinecone_api_key then UploadGate.proceeds else UploadGate.skipped

/- ## The compare_materials tool branch (mcp_server.py lines 187-214) -/

/-- One `"- {ref} {document} (p. {page})\n"` line of the sources block. -/
def formatSourceLine (s : Source) : String :=
  "- " ++ s.ref ++ " " ++ s.document ++ " (p. " ++ s.page ++ ")\n"

/-- Output assembly of the compare_materials branch (mcp_server.py lines
208-212): header, response text, and a sources block only when the source
list is non-empty (`if sources:`). -/
def compareOutput (materialsStr response : String) (sources : List Source) : String :=
  let base := "**Material Comparison: " ++ materialsStr ++ "**\n\n" ++ response ++ "\n\n"
  if sources.isEmpty then base
  else base ++ "**Sources:**\n" ++ String.join (sources.map formatSourceLine)

/-- The query built at mcp_server.py lines 195-197:
`"Compare {materials_str} for {props_str}"` where `materials_str` joins the
materials with `" and "` and `props_str` is `", ".join(properties)` unless
`properties` is empty (falsy), in which case the literal `"properties"`. -/
def compareQuery (materials properties : List String) : String :=
  "Compare " ++ String.intercalate " and " materials ++ " for " ++
    (if properties.isEmpty then "properties" else String.intercalate ", " properties)

/-- The `compare_materials` branch of `call_tool` (mcp_server.py lines
187-214), with the real backend present: `run` stands for the `run_agent`
pipeline (retrieval + generation), returning the response text and its
sources.  The second component counts how many times the pipeline was
invoked (0 or 1), so the guard behaviour is statable.  With fewer than 2
materials the branch returns the fixed error text without touching the
pipeline. -/
def compare_materials (run : String → String × List Source)
    (materials properties : List String) : String × Nat :=
  if materials.length < 2 then
    ("Error: Please provide at least 2 materials to compare.", 0)
  else
    let materialsStr := String.intercalate " and " materials
    let r := run (compareQuery materials properties)
    (compareOutput materialsStr r.1 r.2, 1)

/- ## Concrete sample inputs, used by the witness theorems -/

/-- A sample retrieved passage with full metadata. -/
def sampleDoc : Doc :=
  { page_content := "ASTM A106 Grade B: minimum yield strength 35,000 psi"
  , metadata := { source := some "ASTM_A106.pdf", page := some 5 } }

/-- A second sample passage. -/
def sampleDoc2 : Doc :=
  { page_content := "ASTM A53 covers welded and seamless steel pipe"
  , metadata := { source := some "ASTM_A53.pdf", page := some 2 } }

/-- A passage whose metadata dict has neither a `source` nor a `page` key. -/
def bareDoc : Doc :=
  { page_content := "orphan passage"
  , metadata := { source := none, page := none } }

/-- A passage whose text is 201 characters long (one over the preview cap). -/
def longDoc : Doc :=
  { page_content := String.mk (List.replicate 201 'a')
  , metadata := { source := some "Long.pdf", page := some 1 } }

/-- A similarity search that raises (the index is unreachable). -/
def failSearch : String → Except String (List Doc) :=
  fun _ => Except.error "pinecone down"

/-- A similarity search that returns one passage. -/
def okSearch : String → Except String (List Doc) :=
  fun _ => Except.ok [sampleDoc]

/-- A similarity search over an empty index: zero passages, no error. -/
def emptySearch : String → Except String (List Doc) :=
  fun _ => Except.ok []

/-- A language model that answers successfully. -/
def okLLM : String → Except String String :=
  fun _ => Except.ok "According to [1], the minimum yield strength is 35,000 psi."

/-- A language model reply disclaiming lack of source material. -/
def disclaimLLM : String → Except String String :=
  fun _ => Except.ok "No source material available."

/-- A pipeline stub for the compare_materials witness. -/
def echoRun : String → String × List Source :=
  fun q => (q, [])

/-- An environment with the language-model key set but no vector-index key. -/
def envMissingPinecone : Env :=
  { google_api_key := some "test-google-key"
  , pinecone_api_key := none
  , pinecone_index_name := none }

/- ## Helper lemmas about the retrieval loop -/

theorem retrieveFrom_fst_length (i : Nat) (docs : List Doc) :
    (retrieveFrom i docs).1.length = docs.length := by
  induction docs generalizing i with
  | nil => rfl
  | cons d ds ih => simp [retrieveFrom, ih]

theorem retrieveFrom_snd_length (i : Nat) (docs : List Doc) :
    (retrieveFrom i docs).2.length = docs.length := by
  induction docs generalizing i with
  | nil => rfl
  | cons d ds ih => simp [retrieveFrom, ih]

theorem retrieveFrom_snd_get (docs : List Doc) (i j : Nat)
    (h : j < (retrieveFrom i docs).2.length) (h' : j < docs.length) :
    (retrieveFrom i docs).2.get ⟨j, h⟩ = mkSource (i + j) (docs.get ⟨j, h'⟩) := by
  induction docs generalizing i j with
  | nil => exact absurd h' (by simp)
  | cons d ds ih =>
    cases j with
    | zero => simp [retrieveFrom]
    | succ j' =>
      have hh : j' < (retrieveFrom (i + 1) ds).2.length := by
        simpa [retrieveFrom_snd_length] using Nat.lt_of_succ_lt_succ h'
      have heq : i + (j' + 1) = (i + 1) + j' := by omega
      simp only [retrieveFrom, List.get_cons_succ, List.get, heq]
      exact ih (i + 1) j' hh (Nat.lt_of_succ_lt_succ h')

theorem retrieveFrom_fst_get (docs : List Doc) (i j : Nat)
    (h : j < (retrieveFrom i docs).1.length) (h' : j < docs.length) :
    (retrieveFrom i docs).1.get ⟨j, h⟩ =
      mkRef (i + j) ++ " " ++ (docs.get ⟨j, h'⟩).page_content := by
  induction docs generalizing i j with
  | nil => exact absurd h' (by simp)
  | cons d ds ih =>
    cases j with
    | zero => simp [retrieveFrom]
    | succ j' =>
      have hh : j' < (retrieveFrom (i + 1) ds).1.length := by
        simpa [retrieveFrom_fst_length] using Nat.lt_of_succ_lt_succ h'
      have heq : i + (j' + 1) = (i + 1) + j' := by omega
      simp only [retrieveFrom, List.get_cons_succ, List.get, heq]
      exact ih (i + 1) j' hh (Nat.lt_of_succ_lt_succ h')

theorem retrieve_sources_length (docs : List Doc) :
    (retrieve docs).sources.length = docs.length :=
  retrieveFrom_snd_length 0 docs

theorem retrieve_sources_get (docs : List Doc) (j : Nat)
    (h : j < (retrieve docs).sources.length) (h' : j < docs.length) :
    (retrieve docs).sources.get ⟨j, h⟩ = mkSource j (docs.get ⟨j, h'⟩) := by
  have := retrieveFrom_snd_get docs 0 j h h'
  simpa using this

/- ## Helper lemmas about the workflow -/

theorem runWorkflow_search_err (search : String → Except String (List Doc))
    (llm : String → Except String String) (q e : String)
    (hs : search q = Except.error e) :
    runWorkflow search llm (initialState q) = (Except.error e, [Node.retrieveStep]) := by
  have hnode : retrieveNode search (initialState q) = Except.error e := by
    simp [retrieveNode, initialState, hs, Except.map]
  simp [runWorkflow, hnode]

theorem runWorkflow_both_ok (search : String → Except String (List Doc))
    (llm : String → Except String String) (q : String) (docs : List Doc)
    (resp : String)
    (hs : search q = Except.ok docs)
    (hl : llm (promptTemplate (retrieve docs).context q) = Except.ok resp) :
    runWorkflow search llm (initialState q) =
      (Except.ok { messages := [resp]
                 , context := (retrieve docs).context
                 , sources := (retrieve docs).sources },
       [Node.retrieveStep, Node.generateStep]) := by
  have hnode : retrieveNode search (initialState q) =
      Except.ok { messages := [q]
                , context := (retrieve docs).context
                , sources := (retrieve docs).sources } := by
    simp [retrieveNode, initialState, hs, Except.map]
  have hgen : generateNode llm
      { messages := [q]
      , context := (retrieve docs).context
      , sources := (retrieve docs).sources } =
      Except.ok { messages := [resp]
                , context := (retrieve docs).context
                , sources := (retrieve docs).sources } := by
    simp [generateNode, hl, Except.map]
  simp [runWorkflow, hnode, hgen]

theorem runWorkflow_gen_err (search : String → Except String (List Doc))
    (llm : String → Except String String) (q : String) (docs : List Doc)
    (e : String)
    (hs : search q = Except.ok docs)
    (hl : llm (promptTemplate (retrieve docs).context q) = Except.error e) :
    runWorkflow search llm (initialState q) =
      (Except.error e, [Node.retrieveStep, Node.generateStep]) := by
  have hnode : retrieveNode search (initialState q) =
      Except.ok { messages := [q]
                , context := (retrieve docs).context
                , sources := (retrieve docs).sources } := by
    simp [retrieveNode, initialState, hs, Except.map]
  have hgen : generateNode llm
      { messages := [q]
      , context := (retrieve docs).context
      , sources := (retrieve docs).sources } = Except.error e := by
    simp [generateNode, hl, Except.map]
  simp [runWorkflow, hnode, hgen]

theorem run_agent_of_workflow_err (search : String → Except String (List Doc))
    (llm : String → Except String String) (q e : String)
    (hw : (runWorkflow search llm (initialState q)).1 = Except.error e) :
    run_agent search llm q = Except.error e := by
  unfold run_agent
  rw [hw]

/- ## Claim theorems -/

/-- Claim C1 as stated is false: at a query whose similarity search returns
exactly one passage, the citation list does have exactly one citation, but
its reference marker is the bracketed string "[1]", not the string "1" that
the claim requires (the code builds the marker with surrounding square
brackets). -/
theorem citation_marker_not_plain_digit :
    (retrieve [sampleDoc]).sources.map Source.ref = ["[1]"] ∧
    (retrieve [sampleDoc]).sources.map Source.ref ≠ ["1"] := by
  constructor
  · rfl
  · decide

/-- Claim C1 (amended): for every query whose similarity search returns at
least one passage, the citation list has exactly one citation per returned
passage, and the reference marker of the i-th citation (0-based) is the
bracketed decimal "[i+1]"; markers thus run "[1]" through "[N]" sequentially
in retrieval order, with no gaps and no reordering. -/
theorem citation_markers_sequential (docs : List Doc) :
    (retrieve docs).sources.length = docs.length ∧
    ∀ i (h : i < (retrieve docs).sources.length),
      ((retrieve docs).sources.get ⟨i, h⟩).ref = "[" ++ toString (i + 1) ++ "]" := by
  refine ⟨retrieve_sources_length docs, ?_⟩
  intro i h
  have h' : i < docs.length := by
    simpa [retrieve_sources_length] using h
  rw [retrieve_sources_get docs i h h']
  rfl

/-- Witness for `citation_markers_sequential` at a two-passage search:
the second citation's marker is "[2]". -/
theorem citation_markers_sequential_witness :
    ((retrieve [sampleDoc, sampleDoc2]).sources.get ⟨1, by decide⟩).ref = "[2]" :=
  ((citation_markers_sequential [sampleDoc, sampleDoc2]).2 1 (by decide)).trans
    (by decide)

/-- Claim C2: for every query, the citation list in the query's result has
exactly the cardinality of the passage list returned by the similarity
search, and its i-th citation is built from the i-th returned passage — no
passage dropped, deduplicated or re-ranked, and no extra citation added. -/
theorem citations_match_passages (search : String → Except String (List Doc))
    (llm : String → Except String String) (q : String) (docs : List Doc)
    (res : String × List Source)
    (hs : search q = Except.ok docs)
    (hr : run_agent search llm q = Except.ok res) :
    res.2.length = docs.length ∧
    ∀ i (h : i < res.2.length) (h' : i < docs.length),
      res.2.get ⟨i, h⟩ = mkSource i (docs.get ⟨i, h'⟩) := by
  obtain ⟨r1, r2⟩ := res
  have hsrc : r2 = (retrieve docs).sources := by
    cases hl : llm (promptTemplate (retrieve docs).context q) with
    | error e =>
      have := run_agent_of_workflow_err search llm q e
        (by rw [runWorkflow_gen_err search llm q docs e hs hl])
      rw [this] at hr
      exact absurd hr (by simp)
    | ok resp =>
      have hw := runWorkflow_both_ok search llm q docs resp hs hl
      unfold run_agent at hr
      rw [hw] at hr
      simp [List.getLast?] at hr
      exact hr.2.symm
  subst hsrc
  refine ⟨retrieve_sources_length docs, ?_⟩
  intro i h h'
  exact retrieve_sources_get docs i h h'

/-- Witness for `citations_match_passages`: at a one-passage search the
result's single citation is built from that passage. -/
theorem citations_match_passages_witness :
    ("According to [1], the minimum yield strength is 35,000 psi.",
      (retrieve [sampleDoc]).sources).2.get ⟨0, by decide⟩ =
      mkSource 0 ([sampleDoc].get ⟨0, by decide⟩) :=
  (citations_match_passages okSearch okLLM "q" [sampleDoc]
    ("According to [1], the minimum yield strength is 35,000 psi.",
      (retrieve [sampleDoc]).sources)
    (by rfl) (by rfl)).2 0 (by decide) (by decide)

/-- Claim C3: every per-query failure of either stage is caught at the
endpoint boundary and surfaced as a single 500 error carrying the failure's
message, and a successful reply is always a complete response/citations
pair taken unchanged from the pipeline — never a mixture of result and
error. -/
theorem chat_all_or_nothing (search : String → Except String (List Doc))
    (llm : String → Except String String) (q : String) :
    (∀ e, (runWorkflow search llm (initialState q)).1 = Except.error e →
      chat (run_agent search llm) q = Except.error (500, e)) ∧
    (∀ r s, run_agent search llm q = Except.ok (r, s) →
      chat (run_agent search llm) q =
        Except.ok { response := r, sources := s }) := by
  constructor
  · intro e he
    have hra := run_agent_of_workflow_err search llm q e he
    simp [chat, hra]
  · intro r s hra
    simp [chat, hra]

/-- Witness for `chat_all_or_nothing`: with the similarity search raising,
the endpoint returns a 500 error carrying the raised message. -/
theorem chat_all_or_nothing_witness :
    chat (run_agent failSearch okLLM) "q" = Except.error (500, "pinecone down") :=
  (chat_all_or_nothing failSearch okLLM "q").1 "pinecone down" (by rfl)

/-- Claim C4: whenever the similarity search raises, the whole workflow
stops with that error after the retrieve node alone; the generate node is
never executed (it does not appear in the execution trace). -/
theorem retrieval_failure_blocks_generation
    (search : String → Except String (List Doc))
    (llm : String → Except String String) (st : AgentState) (q e : String)
    (hq : st.messages.getLast? = some q)
    (hs : search q = Except.error e) :
    runWorkflow search llm st = (Except.error e, [Node.retrieveStep]) ∧
    Node.generateStep ∉ (runWorkflow search llm st).2 := by
  have hnode : retrieveNode search st = Except.error e := by
    simp [retrieveNode, hq, hs, Except.map]
  constructor
  · simp [runWorkflow, hnode]
  · simp [runWorkflow, hnode]

/-- Witness for `retrieval_failure_blocks_generation` on a concrete failing
search. -/
theorem retrieval_failure_blocks_generation_witness :
    runWorkflow failSearch okLLM (initialState "q") =
      (Except.error "pinecone down", [Node.retrieveStep]) ∧
    Node.generateStep ∉ (runWorkflow failSearch okLLM (initialState "q")).2 :=
  retrieval_failure_blocks_generation failSearch okLLM (initialState "q")
    "q" "pinecone down" (by rfl) (by rfl)

/-- Claim C5: the context handed to the language model is the join of one
entry per retrieved passage, the entry list has the same length as the
citation list, and the i-th entry begins with exactly the i-th citation's
reference marker (followed by a space and the passage text) — so the
markers embedded in the context are identical to, and ordered as, the
citation list's markers. -/
theorem context_markers_align (docs : List Doc) :
    (contextEntries docs).length = (retrieve docs).sources.length ∧
    (retrieve docs).context = String.intercalate "\n\n" (contextEntries docs) ∧
    ∀ i (h : i < (contextEntries docs).length)
      (h' : i < (retrieve docs).sources.length) (hd : i < docs.length),
      (contextEntries docs).get ⟨i, h⟩ =
        ((retrieve docs).sources.get ⟨i, h'⟩).ref ++ " " ++
          (docs.get ⟨i, hd⟩).page_content := by
  refine ⟨?_, rfl, ?_⟩
  · rw [retrieve_sources_length]
    exact retrieveFrom_fst_length 0 docs
  · intro i h h' hd
    have h1 : (contextEntries docs).get ⟨i, h⟩ =
        mkRef (0 + i) ++ " " ++ (docs.get ⟨i, hd⟩).page_content :=
      retrieveFrom_fst_get docs 0 i h hd
    have h2 : ((retrieve docs).sources.get ⟨i, h'⟩).ref = mkRef i := by
      rw [retrieve_sources_get docs i h' hd]
      rfl
    rw [h1, h2, Nat.zero_add]

/-- Witness for `context_markers_align`: at a one-passage search the sole
context entry is the citation marker, a space, and the passage text. -/
theorem context_markers_align_witness :
    (contextEntries [sampleDoc]).get ⟨0, by decide⟩ =
      ((retrieve [sampleDoc]).sources.get ⟨0, by decide⟩).ref ++ " " ++
        ([sampleDoc].get ⟨0, by decide⟩).page_content :=
  (context_markers_align [sampleDoc]).2.2 0 (by decide) (by decide) (by decide)

theorem mkSource_preview_long (i : Nat) (d : Doc)
    (hlen : 200 < d.page_content.length) :
    (mkSource i d).content_preview = d.page_content.take 200 ++ "..." := by
  simp [mkSource, preview, hlen]

theorem mkSource_preview_short (i : Nat) (d : Doc)
    (hlen : d.page_content.length ≤ 200) :
    (mkSource i d).content_preview = d.page_content := by
  simp [mkSource, preview, Nat.not_lt.mpr hlen]

theorem mkSource_document_default (i : Nat) (d : Doc)
    (hsrc : d.metadata.source = none) :
    (mkSource i d).document = "Unknown Document" := by
  simp [mkSource, hsrc]

theorem mkSource_page_default (i : Nat) (d : Doc)
    (hpage : d.metadata.page = none) :
    (mkSource i d).page = "N/A" := by
  simp [mkSource, hpage]

/-- Claim C6: for every retrieved passage strictly longer than 200
characters, the citation's content_preview is exactly the first 200
characters followed by the "..." truncation marker; for a passage of at
most 200 characters it is the full text unmodified. -/
theorem preview_truncation (docs : List Doc) (i : Nat)
    (h : i < (retrieve docs).sources.length) (h' : i < docs.length) :
    (200 < (docs.get ⟨i, h'⟩).page_content.length →
      ((retrieve docs).sources.get ⟨i, h⟩).content_preview =
        (docs.get ⟨i, h'⟩).page_content.take 200 ++ "...") ∧
    ((docs.get ⟨i, h'⟩).page_content.length ≤ 200 →
      ((retrieve docs).sources.get ⟨i, h⟩).content_preview =
        (docs.get ⟨i, h'⟩).page_content) := by
  rw [retrieve_sources_get docs i h h']
  exact ⟨mkSource_preview_long i (docs.get ⟨i, h'⟩),
         mkSource_preview_short i (docs.get ⟨i, h'⟩)⟩

set_option maxRecDepth 4000 in
/-- Witness for `preview_truncation` at a 201-character passage: the
preview is the first 200 characters plus the marker. -/
theorem preview_truncation_witness :
    ((retrieve [longDoc]).sources.get ⟨0, by decide⟩).content_preview =
      ([longDoc].get ⟨0, by decide⟩).page_content.take 200 ++ "..." :=
  (preview_truncation [longDoc] 0 (by decide) (by decide)).1 (by decide)

/-- Claim C7: a retrieved passage whose metadata lacks the document-name
key yields the sentinel "Unknown Document", and one whose metadata lacks
the page key yields the sentinel "N/A"; citation construction is a total
function, so neither case raises. -/
theorem metadata_fallback (docs : List Doc) (i : Nat)
    (h : i < (retrieve docs).sources.length) (h' : i < docs.length) :
    ((docs.get ⟨i, h'⟩).metadata.source = none →
      ((retrieve docs).sources.get ⟨i, h⟩).document = "Unknown Document") ∧
    ((docs.get ⟨i, h'⟩).metadata.page = none →
      ((retrieve docs).sources.get ⟨i, h⟩).page = "N/A") := by
  rw [retrieve_sources_get docs i h h']
  exact ⟨mkSource_document_default i (docs.get ⟨i, h'⟩),
         mkSource_page_default i (docs.get ⟨i, h'⟩)⟩

/-- Witness for `metadata_fallback` on a passage with an empty metadata
dict: both sentinels appear. -/
theorem metadata_fallback_witness :
    ((retrieve [bareDoc]).sources.get ⟨0, by decide⟩).document =
        "Unknown Document" ∧
    ((retrieve [bareDoc]).sources.get ⟨0, by decide⟩).page = "N/A" :=
  ⟨(metadata_fallback [bareDoc] 0 (by decide) (by decide)).1 (by rfl),
   (metadata_fallback [bareDoc] 0 (by decide) (by decide)).2 (by rfl)⟩

/-- Claim C8: on an empty index (the similarity search returns zero
passages) the retrieval stage yields an empty citation list and an empty
context string, the generate node still executes on that empty context,
and the pipeline completes without error, returning the model's reply with
`citations == []`. -/
theorem empty_index_pipeline (search : String → Except String (List Doc))
    (llm : String → Except String String) (q resp : String)
    (hs : search q = Except.ok [])
    (hl : llm (promptTemplate "" q) = Except.ok resp) :
    (retrieve ([] : List Doc)).sources = [] ∧
    (retrieve ([] : List Doc)).context = "" ∧
    run_agent search llm q = Except.ok (resp, []) ∧
    (runWorkflow search llm (initialState q)).2 =
      [Node.retrieveStep, Node.generateStep] := by
  have hctx : (retrieve ([] : List Doc)).context = "" := rfl
  have hw := runWorkflow_both_ok search llm q [] resp hs hl
  refine ⟨rfl, hctx, ?_, ?_⟩
  · unfold run_agent
    rw [hw]
    rfl
  · rw [hw]

/-- Witness for `empty_index_pipeline` on a concrete empty-index search and
a concrete disclaiming model. -/
theorem empty_index_pipeline_witness :
    run_agent emptySearch disclaimLLM "q" =
      Except.ok ("No source material available.", []) ∧
    (runWorkflow emptySearch disclaimLLM (initialState "q")).2 =
      [Node.retrieveStep, Node.generateStep] := by
  have h := empty_index_pipeline emptySearch disclaimLLM "q"
    "No source material available." (by rfl) (by rfl)
  exact ⟨h.2.2.1, h.2.2.2⟩

/-- Claim C9 as stated is false: in an environment whose vector-index API
key (`PINECONE_API_KEY`) is absent but whose language-model key is set,
agent initialization succeeds (no configuration error is raised before
queries can be served), and the ingestion job's credential check returns
normally by skipping the upload rather than failing. -/
theorem missing_pinecone_key_not_fatal :
    envMissingPinecone.pinecone_api_key = none ∧
    initAgentConfig envMissingPinecone = Except.ok "steel-index" ∧
    pineconeUploadGate envMissingPinecone = UploadGate.skipped :=
  ⟨rfl, rfl, rfl⟩

/-- Claim C9 (amended): only the language-model API key is checked at
process start — if `GOOGLE_API_KEY` is unset or empty, agent
initialization fails immediately with the ValueError message
"GOOGLE_API_KEY missing" before any query can be served, and otherwise it
succeeds with the configured (or default) index name; a missing
`PINECONE_API_KEY` never fails startup — the ingestion job just skips its
upload step. -/
theorem config_fail_fast (env : Env) :
    (pyTruthy env.google_api_key = false →
      initAgentConfig env = Except.error "GOOGLE_API_KEY missing") ∧
    (pyTruthy env.google_api_key = true →
      initAgentConfig env =
        Except.ok (env.pinecone_index_name.getD "steel-index")) ∧
    (env.pinecone_api_key = none →
      pineconeUploadGate env = UploadGate.skipped) := by
  refine ⟨?_, ?_, ?_⟩
  · intro hcred
    simp [initAgentConfig, hcred]
  · intro hcred
    simp [initAgentConfig, hcred]
  · intro hcred
    simp [pineconeUploadGate, pyTruthy, hcred]

/-- Witness for `config_fail_fast`: an environment with no language-model
key fails initialization with the ValueError message. -/
theorem config_fail_fast_witness :
    initAgentConfig
      { google_api_key := none
      , pinecone_api_key := some "pk"
      , pinecone_index_name := none } =
      Except.error "GOOGLE_API_KEY missing" :=
  (config_fail_fast
    { google_api_key := none
    , pinecone_api_key := some "pk"
    , pinecone_index_name := none }).1 (by rfl)

/-- Claim C10: the compare_materials tool with fewer than 2 materials
returns the fixed error text and invokes the underlying pipeline (and
hence neither retrieval nor generation) zero times; with at least 2
materials the pipeline is invoked exactly once. -/
theorem compare_materials_guard (run : String → String × List Source)
    (materials properties : List String) :
    (materials.length < 2 →
      compare_materials run materials properties =
        ("Error: Please provide at least 2 materials to compare.", 0)) ∧
    (2 ≤ materials.length →
      (compare_materials run materials properties).2 = 1) := by
  constructor
  · intro hlt
    simp [compare_materials, hlt]
  · intro hge
    simp [compare_materials, Nat.not_lt.mpr hge]

/-- Witness for `compare_materials_guard`: a single-material call returns
the error text with zero pipeline invocations. -/
theorem compare_materials_guard_witness :
    compare_materials echoRun ["A106 Grade B"] [] =
      ("Error: Please provide at least 2 materials to compare.", 0) :=
  (compare_materials_guard echoRun ["A106 Grade B"] []).1 (by decide)

end SpecVault
